import Mathlib

/-!
# ubicacion-tiempo-real: the WebSocket room server of `server.js`

A shallow embedding of the session / room / broadcast core of `src/server.js`
(lines 76-149): the two global maps `rooms` and `socketMeta`, the `connection`,
`message` and `close` handlers and `broadcastMeta`.

Modelling conventions.

* A socket object `ws` is a handle of type `Conn`; JavaScript `Map` and `Set` are
  insertion-ordered lists (`mapGet`, `mapSet`, `mapDelete`, `setAdd`, `setDelete`).
* `ws.send(JSON.stringify(payload))` is recorded as one entry `(ws, payload)` of the
  list of sends a handler returns; `db.run('INSERT INTO locations ...')` is recorded
  as one row appended to `State.locations`.
* `findUserByToken` is asynchronous in the source: the body of its callback is the
  only part that touches state, so an `auth` event of the model is one run of that
  callback (with the `token`, `room` and `connId` captured by the closure).  The
  callback may run after the socket closed, so traces may contain an `auth` after a
  `close`.
* `s.readyState === WebSocket.OPEN` reads `State.openSockets`; a socket enters it on
  `connection`, and leaves it when the library moves it to CLOSING (`closing`) or
  emits `close`.
* A JavaScript number is `JsNum`, an IEEE 754 binary64 value: `NaN`, plus or minus
  `Infinity`, or a finite value (plus and minus zero included).  The handlers receive
  the numbers of a frame as `JSON.parse` (line 93) has already read them, that is,
  rounded to binary64: the literal `9007199254740993` arrives as `9007199254740992`,
  `1e-400` as `0`, `1e400` as `Infinity` (`jsonParseNumber` is that reading).  The
  server performs no arithmetic on numbers, it only coerces (`Number`) and tests them
  for truthiness.
* A send records the content of the text `JSON.stringify` produces: a number field is
  a `JsonNum`, which is `null` when the number is `NaN` or infinite (`stringifyNumber`).
  A row of `State.locations` records the parameters bound to the INSERT, which are the
  numbers themselves.
* The fields `token` and `room` of an `auth` message are strings or absent, as the
  protocol comment on line 95 has them; the numeric fields of a `location` message
  are any JSON primitive.
-/

namespace UbicacionTiempoReal

/-! ## JavaScript values -/

/-- Handle of a socket object `ws`. -/
abbrev Conn := Nat

/-- Whether `m * 2 ^ e` is the normal form of the magnitude of a finite binary64
value: either zero (`m = 0`, `e = 0`), or `m` odd with at most 53 bits, `e` not below
`-1074` (the exponent of the smallest subnormal) and `m * 2 ^ e` below `2 ^ 1024`. -/
def finite64Ok (m : Nat) (e : Int) : Bool :=
  (m == 0 && e == 0) ||
    (m % 2 == 1 && decide (-1074 ≤ e) && decide (e ≤ 1023) &&
      decide (m < 2 ^ min 53 (1024 - e).toNat))

/-- A finite binary64 value: sign, and magnitude `m * 2 ^ e` in normal form.  Every
finite binary64 value, `-0` included, has exactly one such form. -/
structure Finite64 where
  neg : Bool
  m : Nat
  e : Int
  ok : finite64Ok m e = true
  deriving DecidableEq, Repr

/-- The finite value `+0`. -/
def Finite64.zero : Finite64 :=
  { neg := false, m := 0, e := 0, ok := rfl }

/-- A JavaScript number, that is an IEEE 754 binary64 value. -/
inductive JsNum where
  | nan
  | inf (neg : Bool)
  | fin (d : Finite64)
  deriving DecidableEq, Repr

/-- The number `0`. -/
def JsNum.zero : JsNum :=
  .fin Finite64.zero

/-- The number `1`. -/
def JsNum.one : JsNum :=
  .fin { neg := false, m := 1, e := 0, ok := rfl }

/-- Truthiness of a number: `NaN`, `0` and `-0` are falsy, everything else (the
infinities included) is truthy. -/
def JsNum.truthy : JsNum → Bool
  | .nan => false
  | .inf _ => true
  | .fin d => decide (d.m ≠ 0)

/-- The value of `x || 0` for a number `x`. -/
def JsNum.orZero (x : JsNum) : JsNum :=
  if x.truthy then x else JsNum.zero

/-- A number as it stands in the text `JSON.stringify` produces: `null`, or the
decimal text of a finite value (which reads back as that value). -/
inductive JsonNum where
  | null
  | num (d : Finite64)
  deriving DecidableEq, Repr

/-- What `JSON.stringify` writes for a number: `null` for `NaN` and the infinities,
`0` for both zeros, the value itself otherwise. -/
def stringifyNumber : JsNum → JsonNum
  | .nan => .null
  | .inf _ => .null
  | .fin d => if d.m = 0 then .num Finite64.zero else .num d

/-- Number of bits of `n`; the first argument bounds the recursion. -/
def bitLength : Nat → Nat → Nat
  | 0, _ => 0
  | f + 1, n => if n = 0 then 0 else bitLength f (n / 2) + 1

/-- The pair `(m, k)` with `n = m * 2 ^ k` and `m` odd, for `n > 0`; the first
argument bounds the recursion. -/
def oddPart : Nat → Nat → Nat × Nat
  | 0, n => (n, 0)
  | f + 1, n =>
    if n % 2 = 1 ∨ n = 0 then (n, 0)
    else ((oddPart f (n / 2)).1, (oddPart f (n / 2)).2 + 1)

/-- The power `10 ^ n`. -/
def pow10 : Nat → Nat
  | 0 => 1
  | n + 1 => 10 * pow10 n

/-- The binary64 value nearest to `p / q` (for `q > 0`), ties to even, with the given
sign: the rounding IEEE 754 prescribes and `JSON.parse` applies to a number literal.
With `E` the exponent of the leading bit of `p / q`, the quotient is rounded to a
multiple of `2 ^ max (E - 52) (-1074)`; a result of `2 ^ 1024` or more is `Infinity`. -/
def roundRatio (neg : Bool) (p q : Nat) : JsNum :=
  if p = 0 then .fin { neg := neg, m := 0, e := 0, ok := rfl }
  else
    let e0 : Int := (bitLength p p : Int) - (bitLength q q : Int)
    let E : Int := if q <<< e0.toNat ≤ p <<< (-e0).toNat then e0 else e0 - 1
    let s : Int := max (E - 52) (-1074)
    let num := p <<< (-s).toNat
    let den := q <<< s.toNat
    let quo := num / den
    let rem := num % den
    let M := if den < 2 * rem ∨ (2 * rem = den ∧ quo % 2 = 1) then quo + 1 else quo
    if M = 0 then .fin { neg := neg, m := 0, e := 0, ok := rfl }
    else
      if h : finite64Ok (oddPart M M).1 (s + (oddPart M M).2) = true then
        .fin { neg := neg, m := (oddPart M M).1, e := s + (oddPart M M).2, ok := h }
      else .inf neg

/-- What `JSON.parse` reads from a number literal with the given sign whose digits,
the decimal point dropped, are `digits`, scaled by `10 ^ exp`: `10.5` is
`jsonParseNumber false 105 (-1)`, and `1e400` is `jsonParseNumber false 1 400`. -/
def jsonParseNumber (neg : Bool) (digits : Nat) (exp : Int) : JsNum :=
  if 0 ≤ exp then roundRatio neg (digits * pow10 exp.toNat) 1
  else roundRatio neg digits (pow10 (-exp).toNat)

/-- A primitive value found in a field of a parsed JSON message; `undef` is an absent
field. -/
inductive JVal where
  | undef
  | null
  | bool (b : Bool)
  | num (x : JsNum)
  | str (s : String)
  deriving DecidableEq, Repr

/-- Truthiness of a primitive value, as tested by `||`. -/
def JVal.truthy : JVal → Bool
  | .undef => false
  | .null => false
  | .bool b => b
  | .num x => x.truthy
  | .str s => decide (s ≠ "")

/-- The coercion `Number(v)`; the conversion of a string is the language's own
string-to-number grammar, taken as the parameter `stringToNumber`. -/
def toNumber (stringToNumber : String → JsNum) : JVal → JsNum
  | .undef => .nan
  | .null => JsNum.zero
  | .bool true => JsNum.one
  | .bool false => JsNum.zero
  | .num x => x
  | .str s => stringToNumber s

/-! ## `Map` and `Set` -/

/-- The call `map.get(k)`. -/
def mapGet {κ ν : Type} [DecidableEq κ] : List (κ × ν) → κ → Option ν
  | [], _ => none
  | (k', v) :: rest, k => if k' = k then some v else mapGet rest k

/-- The call `map.has(k)`. -/
def mapHas {κ ν : Type} [DecidableEq κ] (m : List (κ × ν)) (k : κ) : Bool :=
  (mapGet m k).isSome

/-- The call `map.set(k, v)`: an existing key keeps its place, a new key goes last. -/
def mapSet {κ ν : Type} [DecidableEq κ] : List (κ × ν) → κ → ν → List (κ × ν)
  | [], k, v => [(k, v)]
  | (k', v') :: rest, k, v =>
    if k' = k then (k, v) :: rest else (k', v') :: mapSet rest k v

/-- The call `map.delete(k)`. -/
def mapDelete {κ ν : Type} [DecidableEq κ] (m : List (κ × ν)) (k : κ) : List (κ × ν) :=
  m.filter (fun kv => decide (kv.1 ≠ k))

/-- The call `set.add(x)`. -/
def setAdd (s : List Conn) (x : Conn) : List Conn :=
  if x ∈ s then s else s ++ [x]

/-- The call `set.delete(x)`. -/
def setDelete (s : List Conn) (x : Conn) : List Conn :=
  s.filter (fun y => decide (y ≠ x))

/-! ## Data model -/

/-- A row of table `users`, with the text columns filled as `/register` fills them. -/
structure UserRow where
  id : String
  name : String
  token : String
  createdAt : Int
  deriving DecidableEq, Repr

/-- The row `{id, name}` that `SELECT id,name FROM users` hands to the callback. -/
structure User where
  id : String
  name : String
  deriving DecidableEq, Repr

/-- A row inserted into table `locations`: the parameters bound to
`user_id, lat, lng, accuracy, ts`. -/
structure LocationRow where
  userId : String
  lat : JsNum
  lng : JsNum
  accuracy : JsNum
  ts : JsNum
  deriving DecidableEq, Repr

/-- The value stored in `socketMeta`: `{ connId, userId, name, room }`. -/
structure SocketMeta where
  connId : Conn
  userId : Option String
  name : Option String
  room : Option String
  deriving DecidableEq, Repr

/-- An entry of the `users` array of a `meta` message. -/
structure RosterEntry where
  id : String
  name : Option String
  deriving DecidableEq, Repr

/-- The content of a text `JSON.stringify(payload)` passed to `ws.send`. -/
inductive OutMsg where
  | error (error : String)
  | welcome (clientId : String)
  | meta (users : List RosterEntry)
  | location (clientId : String) (name : Option String) (lat lng ts accuracy : JsonNum)
  deriving DecidableEq, Repr

/-- One call `target.send(payload)`. -/
abbrev Send := Conn × OutMsg

/-- What `JSON.parse(data)` and the tests of `msg.type` make of an inbound frame:
`ignored` is a frame that fails to parse (the exception is caught and logged) or whose
`type` is neither `'auth'` nor `'location'`. -/
inductive Inbound where
  | ignored
  | auth (token : Option String) (room : Option String)
  | location (lat lng ts accuracy : JVal)
  deriving DecidableEq, Repr

/-- The server state: the two global maps, the sockets whose `readyState` is OPEN, and
the INSERTs issued on table `locations`, oldest first. -/
structure State where
  rooms : List (String × List Conn)
  socketMeta : List (Conn × SocketMeta)
  openSockets : List Conn
  locations : List LocationRow
  deriving DecidableEq, Repr

/-- The state of a freshly started server. -/
def State.empty : State :=
  { rooms := [], socketMeta := [], openSockets := [], locations := [] }

/-- What a handler reads from outside the two maps: table `users`, whether the query
fails, the string-to-number grammar, and `Date.now()`. -/
structure Env where
  users : List UserRow
  dbError : Bool
  stringToNumber : String → JsNum
  now : JsNum

/-! ## Handlers -/

/-- The function `findUserByToken(token, cb)`: the value handed to `cb`. -/
def findUserByToken (env : Env) (token : Option String) : Option User :=
  if env.dbError then none
  else (env.users.find? (fun r => decide (some r.token = token))).map
    (fun r => { id := r.id, name := r.name })

/-- The test `s.readyState === WebSocket.OPEN`. -/
def isOpen (s : State) (c : Conn) : Bool :=
  decide (c ∈ s.openSockets)

/-- The member set `rooms.get(room)`, empty when the room has no entry. -/
def members (s : State) (room : String) : List Conn :=
  (mapGet s.rooms room).getD []

/-- The `users` array built by `broadcastMeta` from a member set. -/
def roster (s : State) (ms : List Conn) : List RosterEntry :=
  ms.filterMap (fun c =>
    match mapGet s.socketMeta c with
    | some m =>
      match m.userId with
      | some u => if u ≠ "" then some { id := u, name := m.name } else none
      | none => none
    | none => none)

/-- The function `broadcastMeta(room)`. -/
def broadcastMeta (s : State) (room : String) : List Send :=
  match mapGet s.rooms room with
  | none => []
  | some ms => (ms.filter (isOpen s)).map (fun c => (c, OutMsg.meta (roster s ms)))

/-- The `connection` handler. -/
def onConnection (s : State) (ws : Conn) : State :=
  { s with
    socketMeta := mapSet s.socketMeta ws
      { connId := ws, userId := none, name := none, room := none }
    openSockets := if ws ∈ s.openSockets then s.openSockets else s.openSockets ++ [ws] }

/-- The room an `auth` message names: `msg.room || 'sala1'`. -/
def authRoom (room : Option String) : String :=
  match room with
  | some r => if r ≠ "" then r else "sala1"
  | none => "sala1"

/-- The `auth` branch of the `message` handler together with the callback it passes
to `findUserByToken`. -/
def onAuth (env : Env) (s : State) (ws : Conn) (token room : Option String) :
    State × List Send :=
  let room := authRoom room
  match findUserByToken env token with
  | none => (s, [(ws, OutMsg.error "Token inválido")])
  | some user =>
    let s1 : State := { s with
      socketMeta := mapSet s.socketMeta ws
        { connId := ws, userId := some user.id, name := some user.name, room := some room } }
    let s2 : State := { s1 with
      rooms := if mapHas s1.rooms room then s1.rooms else mapSet s1.rooms room [] }
    let s3 : State := { s2 with
      rooms := mapSet s2.rooms room (setAdd (members s2 room) ws) }
    (s3, (ws, OutMsg.welcome user.id) :: broadcastMeta s3 room)

/-- The timestamp of a location event: `Number(msg.ts) || Date.now()` (line 113). -/
def locationTs (env : Env) (ts : JVal) : JsNum :=
  if (toNumber env.stringToNumber ts).truthy then toNumber env.stringToNumber ts
  else env.now

/-- The accuracy of a location event: `Number(msg.accuracy || 0)` (line 113). -/
def locationAccuracy (env : Env) (accuracy : JVal) : JsNum :=
  toNumber env.stringToNumber (if accuracy.truthy then accuracy else JVal.num JsNum.zero)

/-- The fan-out loop of the `location` branch (lines 120-124): the payload goes to
every member of `rooms.get(room)` whose socket is OPEN, when `room` is truthy and has
an entry. -/
def sendToRoom (s : State) (room : Option String) (payload : OutMsg) : List Send :=
  match room with
  | none => []
  | some r =>
    if r ≠ "" ∧ mapHas s.rooms r then
      ((members s r).filter (isOpen s)).map (fun c => (c, payload))
    else []

/-- The `location` branch of the `message` handler. -/
def onLocation (env : Env) (s : State) (ws : Conn) (lat lng ts accuracy : JVal) :
    State × List Send :=
  let m : SocketMeta := (mapGet s.socketMeta ws).getD
    { connId := ws, userId := none, name := none, room := none }
  match m.userId with
  | none => (s, [(ws, OutMsg.error "No autenticado")])
  | some userId =>
    if userId = "" then (s, [(ws, OutMsg.error "No autenticado")])
    else
      let latN := toNumber env.stringToNumber lat
      let lngN := toNumber env.stringToNumber lng
      let tsN := locationTs env ts
      let acc := locationAccuracy env accuracy
      let s1 : State := { s with
        locations := s.locations ++
          [{ userId := userId, lat := latN, lng := lngN, accuracy := acc, ts := tsN }] }
      let payload := OutMsg.location userId m.name (stringifyNumber latN)
        (stringifyNumber lngN) (stringifyNumber tsN) (stringifyNumber acc)
      (s1, sendToRoom s1 m.room payload)

/-- The `message` handler. -/
def onMessage (env : Env) (s : State) (ws : Conn) : Inbound → State × List Send
  | .ignored => (s, [])
  | .auth token room => onAuth env s ws token room
  | .location lat lng ts accuracy => onLocation env s ws lat lng ts accuracy

/-- The `close` handler. -/
def onClose (s : State) (ws : Conn) : State × List Send :=
  let room : Option String := ((mapGet s.socketMeta ws).map (fun m => m.room)).join
  let s1 : State :=
    match room with
    | some r =>
      if r ≠ "" ∧ mapHas s.rooms r then
        { s with rooms := mapSet s.rooms r (setDelete (members s r) ws) }
      else s
    | none => s
  let s2 : State := { s1 with socketMeta := mapDelete s1.socketMeta ws }
  match room with
  | some r => if r ≠ "" then (s2, broadcastMeta s2 r) else (s2, [])
  | none => (s2, [])

/-! ## Events and traces -/

/-- What can happen to the server: a socket connects, a frame is handled, the
library moves a socket out of OPEN, or the library emits `close` (the socket is
CLOSED by then). -/
inductive Event where
  | connect (ws : Conn)
  | message (ws : Conn) (data : Inbound)
  | closing (ws : Conn)
  | close (ws : Conn)
  deriving DecidableEq, Repr

/-- One event: the new state and the sends made while handling it. -/
def step (env : Env) (s : State) : Event → State × List Send
  | .connect ws => (onConnection s ws, [])
  | .message ws data => onMessage env s ws data
  | .closing ws => ({ s with openSockets := setDelete s.openSockets ws }, [])
  | .close ws => onClose { s with openSockets := setDelete s.openSockets ws } ws

/-- The state after a list of events, from `s`. -/
def run (env : Env) (s : State) : List Event → State
  | [] => s
  | e :: es => run env (step env s e).1 es

/-- The states the server can be in: those a finite sequence of events leads to from
the empty state, whatever table `users` and the clock hold at each event. -/
inductive Reachable : State → Prop where
  | init : Reachable State.empty
  | next (env : Env) (e : Event) {s : State} (h : Reachable s) :
      Reachable (step env s e).1

/-- The room recorded in a connection's own `socketMeta` entry. -/
def sessionRoom (s : State) (c : Conn) : Option String :=
  ((mapGet s.socketMeta c).map (fun m => m.room)).join

/-- The `userId` recorded in a connection's own `socketMeta` entry. -/
def sessionUser (s : State) (c : Conn) : Option String :=
  ((mapGet s.socketMeta c).map (fun m => m.userId)).join

/-! ## Invariants of the two maps -/

/-- No member set holds a connection twice (a `Set` never does). -/
def RoomsNodup (s : State) : Prop :=
  ∀ r ms, mapGet s.rooms r = some ms → ms.Nodup

/-- A connection whose `socketMeta` entry records room `r` is in the member set of
`r`, and `r` is a truthy room name. -/
def SessionInRoom (s : State) : Prop :=
  ∀ c m r, mapGet s.socketMeta c = some m → m.room = some r →
    r ≠ "" ∧ ∃ ms, mapGet s.rooms r = some ms ∧ c ∈ ms

/-- A location message whose four fields are numbers. -/
def numericLocation (lat lng ts accuracy : JsNum) : Inbound :=
  .location (.num lat) (.num lng) (.num ts) (.num accuracy)

/-! ## Concrete data used in the examples -/

/-- The number 5. -/
def d5 : Finite64 :=
  { neg := false, m := 5, e := 0, ok := by decide }

/-- The number 10, as `5 * 2 ^ 1`. -/
def d10 : Finite64 :=
  { neg := false, m := 5, e := 1, ok := by decide }

/-- The number 20, as `5 * 2 ^ 2`. -/
def d20 : Finite64 :=
  { neg := false, m := 5, e := 2, ok := by decide }

/-- The number 1000, as `125 * 2 ^ 3`. -/
def d1000 : Finite64 :=
  { neg := false, m := 125, e := 3, ok := by decide }

/-- The number 10.5, as `21 * 2 ^ (-1)`. -/
def d10_5 : Finite64 :=
  { neg := false, m := 21, e := -1, ok := by decide }

/-- The number 20.25, as `81 * 2 ^ (-2)`. -/
def d20_25 : Finite64 :=
  { neg := false, m := 81, e := -2, ok := by decide }

/-- The number 1700000000000, as `830078125 * 2 ^ 11`: a value of `Date.now()`. -/
def dClock : Finite64 :=
  { neg := false, m := 830078125, e := 11, ok := by decide }

/-- The number `-0`. -/
def dNegZero : Finite64 :=
  { neg := true, m := 0, e := 0, ok := rfl }

/-- A `users` table with two registered users, and a clock. -/
def demoEnv : Env :=
  { users := [{ id := "u1", name := "Ana", token := "tok-valid", createdAt := 0 },
              { id := "u2", name := "Bea", token := "tok-bea", createdAt := 0 }]
    dbError := false
    stringToNumber := fun _ => JsNum.nan
    now := .fin dClock }

/-- Connection 1 joins room "A", connection 2 joins room "A" and then sends a second
`auth` naming room "B". -/
def switchTrace : List Event :=
  [.connect 1, .connect 2,
   .message 1 (.auth (some "tok-valid") (some "A")),
   .message 2 (.auth (some "tok-bea") (some "A")),
   .message 2 (.auth (some "tok-bea") (some "B"))]

/-- Connection 1 authenticates into "sala1" (the default room). -/
def joinTrace : List Event :=
  [.connect 1, .message 1 (.auth (some "tok-valid") none)]

/-- Connections 1 and 2 both authenticate into "sala1", one by default. -/
def roomTrace : List Event :=
  [.connect 1, .connect 2,
   .message 1 (.auth (some "tok-valid") none),
   .message 2 (.auth (some "tok-bea") (some "sala1"))]

/-- Connection 1 joins room "A" and then sends a second `auth` naming room "B". -/
def reauthTrace : List Event :=
  [.connect 1,
   .message 1 (.auth (some "tok-valid") (some "A")),
   .message 1 (.auth (some "tok-valid") (some "B"))]

/-- Connections 1 and 2 connect; connection 1 joins room "A", then room "B". -/
def rosterTrace : List Event :=
  [.connect 1, .connect 2,
   .message 1 (.auth (some "tok-valid") (some "A")),
   .message 1 (.auth (some "tok-valid") (some "B"))]

/-- The location message `{lat:10, lng:20, ts:1000, accuracy:5}`. -/
def sampleLocation : Inbound :=
  .location (.num (.fin d10)) (.num (.fin d20)) (.num (.fin d1000)) (.num (.fin d5))

/-- The location message `{lat:10, lng:20, ts:0, accuracy:5}`. -/
def zeroTsLocation : Inbound :=
  .location (.num (.fin d10)) (.num (.fin d20)) (.num JsNum.zero) (.num (.fin d5))

/-- The location message `{lat:10, lng:20, ts:1e400, accuracy:5}`, whose `ts`
`JSON.parse` reads as `Infinity`. -/
def infiniteTsLocation : Inbound :=
  .location (.num (.fin d10)) (.num (.fin d20)) (.num (.inf false)) (.num (.fin d5))

/-! ## Facts about `Map` and `Set` -/

theorem mapGet_mapSet_self {κ ν : Type} [DecidableEq κ] (m : List (κ × ν)) (k : κ) (v : ν) :
    mapGet (mapSet m k v) k = some v := by
  induction m with
  | nil => simp [mapSet, mapGet]
  | cons kv rest ih =>
    obtain ⟨k1, v1⟩ := kv
    by_cases h : k1 = k
    · simp [mapSet, mapGet, h]
    · simp [mapSet, mapGet, h, ih]

theorem mapGet_mapSet_ne {κ ν : Type} [DecidableEq κ] (m : List (κ × ν)) (k k2 : κ) (v : ν)
    (hne : k ≠ k2) : mapGet (mapSet m k v) k2 = mapGet m k2 := by
  induction m with
  | nil => simp [mapSet, mapGet, hne]
  | cons kv rest ih =>
    obtain ⟨k1, v1⟩ := kv
    by_cases h : k1 = k
    · subst h
      simp [mapSet, mapGet, hne]
    · by_cases h2 : k1 = k2
      · subst h2
        simp [mapSet, mapGet, h]
      · simp [mapSet, mapGet, h, h2, ih]

theorem mapGet_mapDelete_self {κ ν : Type} [DecidableEq κ] (m : List (κ × ν)) (k : κ) :
    mapGet (mapDelete m k) k = none := by
  induction m with
  | nil => simp [mapDelete, mapGet]
  | cons kv rest ih =>
    obtain ⟨k1, v1⟩ := kv
    by_cases h : k1 = k
    · simpa [mapDelete, h] using ih
    · simpa [mapDelete, mapGet, h] using ih

theorem mapGet_mapDelete_ne {κ ν : Type} [DecidableEq κ] (m : List (κ × ν)) (k k2 : κ)
    (hne : k ≠ k2) : mapGet (mapDelete m k) k2 = mapGet m k2 := by
  induction m with
  | nil => simp [mapDelete, mapGet]
  | cons kv rest ih =>
    obtain ⟨k1, v1⟩ := kv
    by_cases h : k1 = k
    · subst h
      simpa [mapDelete, mapGet, hne] using ih
    · by_cases h2 : k1 = k2
      · subst h2
        simp [mapDelete, mapGet, h]
      · simpa [mapDelete, mapGet, h, h2] using ih

theorem mapDelete_of_get_none {κ ν : Type} [DecidableEq κ] (m : List (κ × ν)) (k : κ)
    (h : mapGet m k = none) : mapDelete m k = m := by
  induction m with
  | nil => simp [mapDelete]
  | cons kv rest ih =>
    obtain ⟨k1, v1⟩ := kv
    by_cases hk : k1 = k
    · simp [mapGet, hk] at h
    · simp only [mapGet, hk, if_false] at h
      have ih2 := ih h
      unfold mapDelete at ih2 ⊢
      rw [List.filter_cons_of_pos (by simpa using hk), ih2]

theorem setDelete_idem (l : List Conn) (x : Conn) :
    setDelete (setDelete l x) x = setDelete l x := by
  simp [setDelete, List.filter_filter]

theorem not_mem_setDelete (l : List Conn) (x : Conn) : x ∉ setDelete l x := by
  simp [setDelete]

theorem mem_setDelete (l : List Conn) (x y : Conn) :
    y ∈ setDelete l x ↔ y ∈ l ∧ y ≠ x := by
  simp [setDelete]

theorem mem_setAdd (l : List Conn) (x y : Conn) :
    y ∈ setAdd l x ↔ y ∈ l ∨ y = x := by
  unfold setAdd
  by_cases h : x ∈ l
  · simp only [h, if_true]
    constructor
    · exact Or.inl
    · rintro (h1 | h1)
      · exact h1
      · exact h1 ▸ h
  · simp [h]

theorem nodup_setAdd (l : List Conn) (x : Conn) (h : l.Nodup) : (setAdd l x).Nodup := by
  unfold setAdd
  by_cases hx : x ∈ l
  · simpa [hx] using h
  · simp only [hx, if_false]
    exact List.Nodup.append h (List.nodup_singleton x) (by simpa using hx)

theorem nodup_setDelete (l : List Conn) (x : Conn) (h : l.Nodup) : (setDelete l x).Nodup :=
  List.Nodup.filter _ h

/-! ## The close handler on a connection without an entry -/

theorem onClose_of_no_entry (s : State) (ws : Conn) (h : mapGet s.socketMeta ws = none) :
    onClose s ws = (s, []) := by
  unfold onClose
  simp [h, mapDelete_of_get_none]

/-! ## Shape of each handler's result -/

theorem openSockets_update_self (t : State) (l : List Conn) (h : l = t.openSockets) :
    ({ t with openSockets := l } : State) = t := by
  subst h
  rfl

theorem onClose_socketMeta (s : State) (ws : Conn) :
    (onClose s ws).1.socketMeta = mapDelete s.socketMeta ws := by
  unfold onClose
  cases hr : ((mapGet s.socketMeta ws).map (fun m => m.room)).join with
  | none => simp
  | some r =>
    by_cases h1 : r = ""
    · simp [h1]
    · by_cases h2 : mapHas s.rooms r = true
      · simp [h1, h2]
      · simp [h1, h2]

theorem onClose_openSockets (s : State) (ws : Conn) :
    (onClose s ws).1.openSockets = s.openSockets := by
  unfold onClose
  cases hr : ((mapGet s.socketMeta ws).map (fun m => m.room)).join with
  | none => simp
  | some r =>
    by_cases h1 : r = ""
    · simp [h1]
    · by_cases h2 : mapHas s.rooms r = true
      · simp [h1, h2]
      · simp [h1, h2]

theorem onLocation_unauthenticated (env : Env) (s : State) (ws : Conn)
    (lat lng ts accuracy : JVal) (h : sessionUser s ws = none) :
    onLocation env s ws lat lng ts accuracy = (s, [(ws, OutMsg.error "No autenticado")]) := by
  unfold sessionUser at h
  unfold onLocation
  cases hm : mapGet s.socketMeta ws with
  | none => simp
  | some m =>
    rw [hm] at h
    have hu : m.userId = none := by simpa using h
    simp [hu]

theorem onLocation_authenticated (env : Env) (s : State) (ws : Conn) (m : SocketMeta)
    (u : String) (lat lng ts accuracy : JVal)
    (hm : mapGet s.socketMeta ws = some m) (hu : m.userId = some u) (hne : u ≠ "") :
    onLocation env s ws lat lng ts accuracy =
      ({ s with locations := s.locations ++
          [{ userId := u, lat := toNumber env.stringToNumber lat,
             lng := toNumber env.stringToNumber lng,
             accuracy := locationAccuracy env accuracy, ts := locationTs env ts }] },
       sendToRoom s m.room
         (OutMsg.location u m.name (stringifyNumber (toNumber env.stringToNumber lat))
           (stringifyNumber (toNumber env.stringToNumber lng))
           (stringifyNumber (locationTs env ts))
           (stringifyNumber (locationAccuracy env accuracy)))) := by
  unfold onLocation
  simp only [hm, Option.getD_some, hu, hne, if_false]
  rfl

theorem onAuth_unknown (env : Env) (s : State) (ws : Conn) (token room : Option String)
    (h : findUserByToken env token = none) :
    onAuth env s ws token room = (s, [(ws, OutMsg.error "Token inválido")]) := by
  unfold onAuth
  simp [h]

theorem mapSet_mapSet_self {κ ν : Type} [DecidableEq κ] (m : List (κ × ν)) (k : κ)
    (v w : ν) : mapSet (mapSet m k v) k w = mapSet m k w := by
  induction m with
  | nil => simp [mapSet]
  | cons kv rest ih =>
    obtain ⟨k1, v1⟩ := kv
    by_cases h : k1 = k
    · simp [mapSet, h]
    · simp [mapSet, h, ih]

theorem authRoom_ne_empty (room : Option String) : authRoom room ≠ "" := by
  unfold authRoom
  cases room with
  | none => decide
  | some r =>
    by_cases h : r = ""
    · simp [h]
    · simp [h]

theorem onAuth_known (env : Env) (s : State) (ws : Conn) (token room : Option String)
    (user : User) (h : findUserByToken env token = some user) :
    onAuth env s ws token room =
      (({ s with
          socketMeta := mapSet s.socketMeta ws
            { connId := ws, userId := some user.id, name := some user.name,
              room := some (authRoom room) }
          rooms := mapSet s.rooms (authRoom room)
            (setAdd (members s (authRoom room)) ws) } : State),
       (ws, OutMsg.welcome user.id) ::
         broadcastMeta ({ s with
          socketMeta := mapSet s.socketMeta ws
            { connId := ws, userId := some user.id, name := some user.name,
              room := some (authRoom room) }
          rooms := mapSet s.rooms (authRoom room)
            (setAdd (members s (authRoom room)) ws) } : State) (authRoom room)) := by
  unfold onAuth
  simp only [h]
  cases hg : mapGet s.rooms (authRoom room) with
  | none =>
    simp [mapHas, members, hg, mapGet_mapSet_self, mapSet_mapSet_self]
  | some ms =>
    simp [mapHas, members, hg]

theorem onClose_rooms (s : State) (ws : Conn) :
    (onClose s ws).1.rooms =
      match sessionRoom s ws with
      | some r =>
        if r ≠ "" ∧ mapHas s.rooms r = true then
          mapSet s.rooms r (setDelete (members s r) ws)
        else s.rooms
      | none => s.rooms := by
  unfold onClose sessionRoom
  cases hr : ((mapGet s.socketMeta ws).map (fun m => m.room)).join with
  | none => simp
  | some r =>
    by_cases h1 : r = ""
    · simp [h1]
    · by_cases h2 : mapHas s.rooms r = true
      · simp [h1, h2]
      · simp [h1, h2]

theorem onLocation_maps (env : Env) (s : State) (ws : Conn) (lat lng ts accuracy : JVal) :
    (onLocation env s ws lat lng ts accuracy).1.rooms = s.rooms ∧
    (onLocation env s ws lat lng ts accuracy).1.socketMeta = s.socketMeta := by
  cases hu : sessionUser s ws with
  | none =>
    rw [onLocation_unauthenticated env s ws lat lng ts accuracy hu]
    exact ⟨rfl, rfl⟩
  | some u =>
    unfold sessionUser at hu
    cases hm : mapGet s.socketMeta ws with
    | none => simp [hm] at hu
    | some m =>
      have hu2 : m.userId = some u := by simpa [hm] using hu
      by_cases hne : u = ""
      · unfold onLocation
        simp [hm, hu2, hne]
      · rw [onLocation_authenticated env s ws m u lat lng ts accuracy hm hu2 hne]
        exact ⟨rfl, rfl⟩

theorem count_fanout (ms : List Conn) (p : Conn → Bool) (payload : OutMsg) (c : Conn)
    (hnd : ms.Nodup) :
    ((ms.filter p).map (fun d => (d, payload))).count (c, payload) =
      if c ∈ ms ∧ p c = true then 1 else 0 := by
  induction ms with
  | nil => simp
  | cons d ms ih =>
    have hd : d ∉ ms := (List.nodup_cons.mp hnd).1
    have ih2 := ih (List.nodup_cons.mp hnd).2
    by_cases hp : p d = true
    · by_cases hc : c = d
      · subst hc
        have hz : ((ms.filter p).map (fun d => (d, payload))).count (c, payload) = 0 := by
          rw [ih2]; simp [hd]
        simp [List.filter_cons, hp, List.count_cons, hz]
      · have hc2 : ¬ d = c := fun h => hc h.symm
        simp [List.filter_cons, hp, List.count_cons, ih2, hc, hc2]
    · by_cases hc : c = d
      · subst hc
        have hz : ((ms.filter p).map (fun d => (d, payload))).count (c, payload) = 0 := by
          rw [ih2]; simp [hd]
        simp [List.filter_cons, hp, hz]
      · simp [List.filter_cons, hp, ih2, hc]

theorem locationTs_truthy (env : Env) (t : JsNum) (h : t.truthy = true) :
    locationTs env (.num t) = t := by
  simp [locationTs, toNumber, h]

theorem locationTs_falsy (env : Env) (t : JsNum) (h : t.truthy = false) :
    locationTs env (.num t) = env.now := by
  simp [locationTs, toNumber, h]

theorem locationAccuracy_num (env : Env) (a : JsNum) :
    locationAccuracy env (.num a) = a.orZero := by
  cases h : a.truthy with
  | false => simp [locationAccuracy, JVal.truthy, JsNum.orZero, toNumber, h]
  | true => simp [locationAccuracy, JVal.truthy, JsNum.orZero, toNumber, h]

/-! ## Reachability -/

theorem reachable_run (env : Env) (es : List Event) :
    ∀ s : State, Reachable s → Reachable (run env s es) := by
  induction es with
  | nil => intro s h; exact h
  | cons e es ih => intro s h; exact ih _ (Reachable.next env e h)

theorem members_nodup (s : State) (h : RoomsNodup s) (r : String) : (members s r).Nodup := by
  unfold members
  cases hg : mapGet s.rooms r with
  | none => simp
  | some ms => simpa using h r ms hg

theorem inv_of_maps_eq (s t : State) (hr : t.rooms = s.rooms)
    (hm : t.socketMeta = s.socketMeta) (h : RoomsNodup s ∧ SessionInRoom s) :
    RoomsNodup t ∧ SessionInRoom t := by
  unfold RoomsNodup SessionInRoom at *
  rw [hr, hm]
  exact h

theorem inv_connect (s : State) (ws : Conn) (h : RoomsNodup s ∧ SessionInRoom s) :
    RoomsNodup (onConnection s ws) ∧ SessionInRoom (onConnection s ws) := by
  refine ⟨h.1, ?_⟩
  intro c m r hm hr
  by_cases hc : ws = c
  · subst hc
    simp only [onConnection, mapGet_mapSet_self] at hm
    cases hm
    cases hr
  · simp only [onConnection, mapGet_mapSet_ne _ _ _ _ hc] at hm
    exact h.2 c m r hm hr

theorem inv_auth (env : Env) (s : State) (ws : Conn) (token room : Option String)
    (h : RoomsNodup s ∧ SessionInRoom s) :
    RoomsNodup (onAuth env s ws token room).1 ∧
    SessionInRoom (onAuth env s ws token room).1 := by
  cases hf : findUserByToken env token with
  | none =>
    rw [onAuth_unknown env s ws token room hf]
    exact h
  | some user =>
    rw [onAuth_known env s ws token room user hf]
    constructor
    · intro r ms hg
      by_cases hr : authRoom room = r
      · subst hr
        simp only [mapGet_mapSet_self] at hg
        cases hg
        exact nodup_setAdd _ ws (members_nodup s h.1 _)
      · simp only [mapGet_mapSet_ne _ _ _ _ hr] at hg
        exact h.1 r ms hg
    · intro c m r hm hr
      by_cases hc : ws = c
      · subst hc
        simp only [mapGet_mapSet_self] at hm
        cases hm
        cases hr
        refine ⟨authRoom_ne_empty room, _, mapGet_mapSet_self _ _ _, ?_⟩
        exact (mem_setAdd _ _ _).2 (Or.inr rfl)
      · simp only [mapGet_mapSet_ne _ _ _ _ hc] at hm
        obtain ⟨hne, ms, hg, hmem⟩ := h.2 c m r hm hr
        refine ⟨hne, ?_⟩
        by_cases hr2 : authRoom room = r
        · subst hr2
          refine ⟨_, mapGet_mapSet_self _ _ _, ?_⟩
          apply (mem_setAdd _ _ _).2
          left
          simpa [members, hg] using hmem
        · refine ⟨ms, ?_, hmem⟩
          simpa only [mapGet_mapSet_ne _ _ _ _ hr2] using hg

theorem inv_close (s : State) (ws : Conn) (h : RoomsNodup s ∧ SessionInRoom s) :
    RoomsNodup (onClose s ws).1 ∧ SessionInRoom (onClose s ws).1 := by
  have hrooms := onClose_rooms s ws
  have hmeta := onClose_socketMeta s ws
  constructor
  · intro r ms hg
    rw [hrooms] at hg
    cases hs : sessionRoom s ws with
    | none =>
      rw [hs] at hg
      exact h.1 r ms hg
    | some r0 =>
      rw [hs] at hg
      by_cases hcond : r0 ≠ "" ∧ mapHas s.rooms r0 = true
      · simp only [hcond, and_self, if_true, ne_eq, not_false_eq_true] at hg
        by_cases hr : r0 = r
        · subst hr
          simp only [mapGet_mapSet_self] at hg
          cases hg
          exact nodup_setDelete _ ws (members_nodup s h.1 _)
        · simp only [mapGet_mapSet_ne _ _ _ _ hr] at hg
          exact h.1 r ms hg
      · simp only [if_neg hcond] at hg
        exact h.1 r ms hg
  · intro c m r hm hr
    rw [hmeta] at hm
    have hc : ws ≠ c := by
      intro hc
      subst hc
      rw [mapGet_mapDelete_self] at hm
      cases hm
    rw [mapGet_mapDelete_ne _ _ _ hc] at hm
    obtain ⟨hne, ms, hg, hmem⟩ := h.2 c m r hm hr
    refine ⟨hne, ?_⟩
    rw [hrooms]
    cases hs : sessionRoom s ws with
    | none => exact ⟨ms, hg, hmem⟩
    | some r0 =>
      by_cases hcond : r0 ≠ "" ∧ mapHas s.rooms r0 = true
      · simp only [hcond, and_self, if_true, ne_eq, not_false_eq_true]
        by_cases hr2 : r0 = r
        · subst hr2
          refine ⟨_, mapGet_mapSet_self _ _ _, ?_⟩
          apply (mem_setDelete _ _ _).2
          refine ⟨?_, fun hcw => hc hcw.symm⟩
          simpa [members, hg] using hmem
        · refine ⟨ms, ?_, hmem⟩
          simpa only [mapGet_mapSet_ne _ _ _ _ hr2] using hg
      · simp only [if_neg hcond]
        exact ⟨ms, hg, hmem⟩

theorem inv_step (env : Env) (s : State) (e : Event) (h : RoomsNodup s ∧ SessionInRoom s) :
    RoomsNodup (step env s e).1 ∧ SessionInRoom (step env s e).1 := by
  cases e with
  | connect ws => exact inv_connect s ws h
  | message ws data =>
    cases data with
    | ignored => exact h
    | auth token room => exact inv_auth env s ws token room h
    | location lat lng ts accuracy =>
      exact inv_of_maps_eq s _ (onLocation_maps env s ws lat lng ts accuracy).1
        (onLocation_maps env s ws lat lng ts accuracy).2 h
  | closing ws => exact inv_of_maps_eq s _ rfl rfl h
  | close ws =>
    exact inv_close _ ws (inv_of_maps_eq s _ rfl rfl h)

theorem reachable_inv (s : State) (h : Reachable s) : RoomsNodup s ∧ SessionInRoom s := by
  induction h with
  | init =>
    constructor
    · intro r ms hg
      simp [State.empty, mapGet] at hg
    · intro c m r hm
      simp [State.empty, mapGet] at hm
  | next env e _ ih => exact inv_step env _ e ih

/-! ## What a successful `auth` and a `close` do, in general -/

theorem broadcastMeta_eq (s : State) (R : String) :
    broadcastMeta s R =
      ((members s R).filter (isOpen s)).map
        (fun c => (c, OutMsg.meta (roster s (members s R)))) := by
  unfold broadcastMeta members
  cases hg : mapGet s.rooms R with
  | none => simp
  | some ms => simp

theorem onClose_sends (s : State) (ws : Conn) :
    (onClose s ws).2 =
      match sessionRoom s ws with
      | some r => if r ≠ "" then broadcastMeta (onClose s ws).1 r else []
      | none => [] := by
  unfold onClose sessionRoom
  cases hr : ((mapGet s.socketMeta ws).map (fun m => m.room)).join with
  | none => simp
  | some r =>
    by_cases h1 : r = ""
    · simp [h1]
    · simp [h1]

/-- A successful `auth` naming room `R`: the sends are one `welcome` to the sender,
then one `meta` to each OPEN member of `R`; the roster is computed from the member
set of `R`; the sender is a member of `R` and its session records room `R`. -/
theorem auth_known_effect (env : Env) (s : State) (ws : Conn) (token room : Option String)
    (user : User) (h : findUserByToken env token = some user) :
    (step env s (.message ws (.auth token room))).2 =
      (ws, OutMsg.welcome user.id) ::
        ((members (step env s (.message ws (.auth token room))).1 (authRoom room)).filter
          (isOpen (step env s (.message ws (.auth token room))).1)).map
          (fun c => (c, OutMsg.meta
            (roster (step env s (.message ws (.auth token room))).1
              (members (step env s (.message ws (.auth token room))).1 (authRoom room))))) ∧
    members (step env s (.message ws (.auth token room))).1 (authRoom room) =
      setAdd (members s (authRoom room)) ws ∧
    ws ∈ members (step env s (.message ws (.auth token room))).1 (authRoom room) ∧
    sessionRoom (step env s (.message ws (.auth token room))).1 ws = some (authRoom room) ∧
    sessionUser (step env s (.message ws (.auth token room))).1 ws = some user.id := by
  have hstep : step env s (.message ws (.auth token room)) = _ :=
    onAuth_known env s ws token room user h
  rw [hstep]
  have hmem : members ({ s with
          socketMeta := mapSet s.socketMeta ws
            { connId := ws, userId := some user.id, name := some user.name,
              room := some (authRoom room) }
          rooms := mapSet s.rooms (authRoom room)
            (setAdd (members s (authRoom room)) ws) } : State) (authRoom room) =
      setAdd (members s (authRoom room)) ws := by
    simp [members, mapGet_mapSet_self]
  refine ⟨?_, hmem, ?_, ?_, ?_⟩
  · simp only [broadcastMeta_eq]
  · rw [hmem]
    exact (mem_setAdd _ _ _).2 (Or.inr rfl)
  · simp [sessionRoom, mapGet_mapSet_self]
  · simp [sessionUser, mapGet_mapSet_self]

/-- Handling `close` for a connection whose session records room `R`, in a reachable
state: the connection leaves the member set of `R`, its `socketMeta` entry is deleted,
and one `meta`, with the roster of the remaining members, goes to each remaining OPEN
member of `R`. -/
theorem close_effect_on_session_room (env : Env) (s : State) (ws : Conn) (R : String)
    (hreach : Reachable s) (hs : sessionRoom s ws = some R) :
    members (step env s (.close ws)).1 R = setDelete (members s R) ws ∧
    ws ∉ members (step env s (.close ws)).1 R ∧
    mapGet (step env s (.close ws)).1.socketMeta ws = none ∧
    (step env s (.close ws)).2 =
      ((members (step env s (.close ws)).1 R).filter
        (isOpen (step env s (.close ws)).1)).map
        (fun c => (c, OutMsg.meta
          (roster (step env s (.close ws)).1 (members (step env s (.close ws)).1 R)))) := by
  obtain ⟨_, hsess⟩ := reachable_inv s hreach
  have hs0 : sessionRoom { s with openSockets := setDelete s.openSockets ws } ws = some R := hs
  obtain ⟨m, hm, hroom⟩ : ∃ m, mapGet s.socketMeta ws = some m ∧ m.room = some R := by
    unfold sessionRoom at hs
    cases hm : mapGet s.socketMeta ws with
    | none => simp [hm] at hs
    | some m => exact ⟨m, rfl, by simpa [hm] using hs⟩
  obtain ⟨hR, ms, hg, _⟩ := hsess ws m R hm hroom
  have hrooms : (step env s (.close ws)).1.rooms =
      mapSet s.rooms R (setDelete (members s R) ws) := by
    simp only [step]
    rw [onClose_rooms, hs0]
    simp [hR, mapHas, hg, members]
  have hmem : members (step env s (.close ws)).1 R = setDelete (members s R) ws := by
    unfold members
    rw [hrooms, mapGet_mapSet_self]
    rfl
  refine ⟨hmem, ?_, ?_, ?_⟩
  · rw [hmem]
    exact not_mem_setDelete _ ws
  · simp only [step]
    rw [onClose_socketMeta]
    exact mapGet_mapDelete_self _ ws
  · simp only [step]
    rw [onClose_sends, hs0]
    simp only [hR, ne_eq, not_false_eq_true, if_true]
    exact broadcastMeta_eq _ R

/-! ## Numbers at the edge of binary64 -/

/-- What `JSON.parse` reads from some number literals: `10.5`, `20.25`, `1000` and
`1700000000000` exactly; `9007199254740993` as `2 ^ 53 = 9007199254740992`; `1e-400`
as `0`; `1e400` as `Infinity`. -/
theorem jsonParseNumber_examples :
    jsonParseNumber false 105 (-1) = .fin d10_5 ∧
    jsonParseNumber false 2025 (-2) = .fin d20_25 ∧
    jsonParseNumber false 1000 0 = .fin d1000 ∧
    jsonParseNumber false 1700000000000 0 = .fin dClock ∧
    jsonParseNumber false 9007199254740993 0 =
      .fin { neg := false, m := 1, e := 53, ok := by decide } ∧
    jsonParseNumber false 9007199254740992 0 =
      .fin { neg := false, m := 1, e := 53, ok := by decide } ∧
    jsonParseNumber false 1 (-400) = JsNum.zero ∧
    jsonParseNumber true 0 0 = .fin dNegZero ∧
    jsonParseNumber false 1 400 = .inf false := by
  decide!

/-- The frame `{type:"location", lat:10, lng:20, ts:9007199254740993, accuracy:5}`
from connection 1, authenticated as ("u1", "Ana"): the `ts` appended and sent is
`9007199254740992`, the value `JSON.parse` read. -/
theorem unrepresentable_ts_is_rounded_by_parse :
    (step demoEnv (run demoEnv State.empty joinTrace)
        (.message 1 (numericLocation (jsonParseNumber false 10 0) (jsonParseNumber false 20 0)
          (jsonParseNumber false 9007199254740993 0)
          (jsonParseNumber false 5 0)))).1.locations =
      [{ userId := "u1", lat := .fin d10, lng := .fin d20, accuracy := .fin d5,
         ts := jsonParseNumber false 9007199254740992 0 }] ∧
    (step demoEnv (run demoEnv State.empty joinTrace)
        (.message 1 (numericLocation (jsonParseNumber false 10 0) (jsonParseNumber false 20 0)
          (jsonParseNumber false 9007199254740993 0)
          (jsonParseNumber false 5 0)))).2 =
      [(1, OutMsg.location "u1" (some "Ana") (.num d10) (.num d20)
            (.num { neg := false, m := 1, e := 53, ok := by decide }) (.num d5))] := by
  decide!

/-- The frame `{type:"location", lat:10, lng:20, ts:1e-400, accuracy:5}`: `JSON.parse`
reads the `ts` as `0`, so the clock is used. -/
theorem underflowing_ts_is_replaced_by_clock :
    (step demoEnv (run demoEnv State.empty joinTrace)
        (.message 1 (numericLocation (jsonParseNumber false 10 0) (jsonParseNumber false 20 0)
          (jsonParseNumber false 1 (-400)) (jsonParseNumber false 5 0)))).1.locations =
      [{ userId := "u1", lat := .fin d10, lng := .fin d20, accuracy := .fin d5,
         ts := .fin dClock }] ∧
    (step demoEnv (run demoEnv State.empty joinTrace)
        (.message 1 (numericLocation (jsonParseNumber false 10 0) (jsonParseNumber false 20 0)
          (jsonParseNumber false 1 (-400)) (jsonParseNumber false 5 0)))).2 =
      [(1, OutMsg.location "u1" (some "Ana") (.num d10) (.num d20) (.num dClock)
            (.num d5))] := by
  decide!

/-- The frame `{type:"location", lat:10, lng:20, ts:1e400, accuracy:5}`: `JSON.parse`
reads the `ts` as `Infinity`, which is appended, and `null` is sent. -/
theorem overflowing_ts_is_sent_as_null :
    (step demoEnv (run demoEnv State.empty joinTrace)
        (.message 1 (numericLocation (jsonParseNumber false 10 0) (jsonParseNumber false 20 0)
          (jsonParseNumber false 1 400) (jsonParseNumber false 5 0)))).1.locations =
      [{ userId := "u1", lat := .fin d10, lng := .fin d20, accuracy := .fin d5,
         ts := .inf false }] ∧
    (step demoEnv (run demoEnv State.empty joinTrace)
        (.message 1 (numericLocation (jsonParseNumber false 10 0) (jsonParseNumber false 20 0)
          (jsonParseNumber false 1 400) (jsonParseNumber false 5 0)))).2 =
      [(1, OutMsg.location "u1" (some "Ana") (.num d10) (.num d20) .null (.num d5))] := by
  decide!

/-- A `ts` that `JSON.parse` read as `Infinity` (the literal `1e400`) is truthy: the
row appended carries `Infinity` and the message sent carries `null`. -/
theorem infinite_ts_is_sent_as_null :
    (step demoEnv (run demoEnv State.empty joinTrace)
        (.message 1 infiniteTsLocation)).1.locations =
      [{ userId := "u1", lat := .fin d10, lng := .fin d20, accuracy := .fin d5,
         ts := .inf false }] ∧
    (step demoEnv (run demoEnv State.empty joinTrace) (.message 1 infiniteTsLocation)).2 =
      [(1, OutMsg.location "u1" (some "Ana") (.num d10) (.num d20) .null (.num d5))] := by
  decide

/-- A `ts` and an `accuracy` of `-0` are falsy: the clock replaces the `ts`, and the
accuracy appended and sent is `0`. -/
theorem negative_zero_is_falsy :
    (step demoEnv (run demoEnv State.empty joinTrace)
        (.message 1 (numericLocation (.fin d10) (.fin d20) (.fin dNegZero)
          (.fin dNegZero)))).1.locations =
      [{ userId := "u1", lat := .fin d10, lng := .fin d20, accuracy := JsNum.zero,
         ts := .fin dClock }] ∧
    (step demoEnv (run demoEnv State.empty joinTrace)
        (.message 1 (numericLocation (.fin d10) (.fin d20) (.fin dNegZero)
          (.fin dNegZero)))).2 =
      [(1, OutMsg.location "u1" (some "Ana") (.num d10) (.num d20) (.num dClock)
            (.num Finite64.zero))] := by
  decide

/-! ## Claims -/

/-- C4: a `location` message from a connection whose `socketMeta` entry has no `userId`
(or that has no entry) makes exactly one send, an `error` to that connection, inserts
no row into `locations`, and leaves `rooms` and `socketMeta` as they were. -/
theorem location_before_auth_rejected (env : Env) (s : State) (ws : Conn)
    (lat lng ts accuracy : JVal) (h : sessionUser s ws = none) :
    (∃ text, (step env s (.message ws (.location lat lng ts accuracy))).2 =
        [(ws, OutMsg.error text)]) ∧
    (step env s (.message ws (.location lat lng ts accuracy))).1.locations = s.locations ∧
    (step env s (.message ws (.location lat lng ts accuracy))).1.rooms = s.rooms ∧
    (step env s (.message ws (.location lat lng ts accuracy))).1.socketMeta = s.socketMeta := by
  have hstep : step env s (.message ws (.location lat lng ts accuracy)) =
      (s, [(ws, OutMsg.error "No autenticado")]) :=
    onLocation_unauthenticated env s ws lat lng ts accuracy h
  rw [hstep]
  exact ⟨⟨_, rfl⟩, rfl, rfl, rfl⟩

theorem location_before_auth_rejected_witness :
    sessionUser (run demoEnv State.empty
        [.connect 7, .message 7 (.auth (some "tok-unknown") none)]) 7 = none ∧
    ((∃ text, (step demoEnv (run demoEnv State.empty
        [.connect 7, .message 7 (.auth (some "tok-unknown") none)])
        (.message 7 zeroTsLocation)).2 = [(7, OutMsg.error text)]) ∧
     (step demoEnv (run demoEnv State.empty
        [.connect 7, .message 7 (.auth (some "tok-unknown") none)])
        (.message 7 zeroTsLocation)).1.locations = [] ∧
     (step demoEnv (run demoEnv State.empty
        [.connect 7, .message 7 (.auth (some "tok-unknown") none)])
        (.message 7 zeroTsLocation)).1.rooms = [] ∧
     (step demoEnv (run demoEnv State.empty
        [.connect 7, .message 7 (.auth (some "tok-unknown") none)])
        (.message 7 zeroTsLocation)).1.socketMeta =
       [(7, { connId := 7, userId := none, name := none, room := none })]) :=
  ⟨by decide,
   location_before_auth_rejected demoEnv _ 7 _ _ _ _ (by decide)⟩

/-- C5: an `auth` message whose token `findUserByToken` does not resolve makes exactly
one send, an `error` to the sending connection (so no `meta` is sent to anyone), and
leaves `rooms` and `socketMeta` exactly as they were. -/
theorem auth_unknown_token_rejected (env : Env) (s : State) (ws : Conn)
    (token room : Option String) (h : findUserByToken env token = none) :
    (∃ text, (step env s (.message ws (.auth token room))).2 = [(ws, OutMsg.error text)]) ∧
    (∀ x ∈ (step env s (.message ws (.auth token room))).2, ∀ users,
        x.2 ≠ OutMsg.meta users) ∧
    (step env s (.message ws (.auth token room))).1.rooms = s.rooms ∧
    (step env s (.message ws (.auth token room))).1.socketMeta = s.socketMeta := by
  have hstep : step env s (.message ws (.auth token room)) =
      (s, [(ws, OutMsg.error "Token inválido")]) :=
    onAuth_unknown env s ws token room h
  rw [hstep]
  refine ⟨⟨_, rfl⟩, ?_, rfl, rfl⟩
  intro x hx users
  simp only [List.mem_singleton] at hx
  subst hx
  simp

theorem auth_unknown_token_rejected_witness :
    findUserByToken demoEnv (some "tok-unknown") = none ∧
    ((∃ text, (step demoEnv (run demoEnv State.empty joinTrace)
        (.message 2 (.auth (some "tok-unknown") none))).2 = [(2, OutMsg.error text)]) ∧
     (∀ x ∈ (step demoEnv (run demoEnv State.empty joinTrace)
        (.message 2 (.auth (some "tok-unknown") none))).2, ∀ users,
        x.2 ≠ OutMsg.meta users) ∧
     (step demoEnv (run demoEnv State.empty joinTrace)
        (.message 2 (.auth (some "tok-unknown") none))).1.rooms =
       (run demoEnv State.empty joinTrace).rooms ∧
     (step demoEnv (run demoEnv State.empty joinTrace)
        (.message 2 (.auth (some "tok-unknown") none))).1.socketMeta =
       (run demoEnv State.empty joinTrace).socketMeta) :=
  ⟨by decide,
   auth_unknown_token_rejected demoEnv _ 2 (some "tok-unknown") none (by decide)⟩

/-- C8: handling `close` a second time on a connection whose `close` was already
handled makes no send and leaves the whole state, `rooms` and `socketMeta` included,
as the first `close` left it. -/
theorem close_twice_is_close_once (env env2 : Env) (s : State) (ws : Conn) :
    step env2 (step env s (.close ws)).1 (.close ws) = ((step env s (.close ws)).1, []) := by
  simp only [step]
  rw [openSockets_update_self _ _
    (by rw [onClose_openSockets]; exact setDelete_idem _ _)]
  apply onClose_of_no_entry
  rw [onClose_socketMeta]
  exact mapGet_mapDelete_self _ ws

/-- C9 (counterexample): the reply to an `auth` with an unknown token is not
`{type:"error", error:"invalid token"}`, and the reply to a `location` from an
unauthenticated connection does not carry the text "not authenticated". -/
theorem error_replies_are_not_the_english_texts :
    (step demoEnv (run demoEnv State.empty joinTrace)
        (.message 2 (.auth (some "tok-unknown") none))).2 ≠
      [(2, OutMsg.error "invalid token")] ∧
    (step demoEnv (run demoEnv State.empty joinTrace) (.message 2 sampleLocation)).2 ≠
      [(2, OutMsg.error "not authenticated")] := by
  decide

/-- C9 (amended): the reply to an `auth` whose token is unknown is exactly
`{type:"error", error:"Token inválido"}`, and the reply to a `location` from an
unauthenticated connection is exactly `{type:"error", error:"No autenticado"}`. -/
theorem error_reply_texts (env : Env) (s : State) (ws : Conn) (token room : Option String)
    (env2 : Env) (s2 : State) (ws2 : Conn) (lat lng ts accuracy : JVal)
    (h1 : findUserByToken env token = none) (h2 : sessionUser s2 ws2 = none) :
    (step env s (.message ws (.auth token room))).2 = [(ws, OutMsg.error "Token inválido")] ∧
    (step env2 s2 (.message ws2 (.location lat lng ts accuracy))).2 =
      [(ws2, OutMsg.error "No autenticado")] := by
  have hstep1 : step env s (.message ws (.auth token room)) =
      (s, [(ws, OutMsg.error "Token inválido")]) :=
    onAuth_unknown env s ws token room h1
  have hstep2 : step env2 s2 (.message ws2 (.location lat lng ts accuracy)) =
      (s2, [(ws2, OutMsg.error "No autenticado")]) :=
    onLocation_unauthenticated env2 s2 ws2 lat lng ts accuracy h2
  rw [hstep1, hstep2]
  exact ⟨rfl, rfl⟩

theorem error_reply_texts_witness :
    (findUserByToken demoEnv none = none ∧ sessionUser State.empty 3 = none) ∧
    ((step demoEnv (run demoEnv State.empty joinTrace) (.message 1 (.auth none (some "B")))).2 =
        [(1, OutMsg.error "Token inválido")] ∧
     (step demoEnv State.empty (.message 3 sampleLocation)).2 =
        [(3, OutMsg.error "No autenticado")]) :=
  ⟨⟨by decide, by decide⟩,
   error_reply_texts demoEnv _ 1 none (some "B") demoEnv State.empty 3 _ _ _ _
     (by decide) (by decide)⟩

/-- C10 (counterexample): connection 1, authenticated as ("u1", "Ana") in "sala1",
sends a location with `ts` 0: the `ts` of the broadcast message is the server clock,
not the supplied 0. -/
theorem zero_ts_is_replaced_in_broadcast :
    (step demoEnv (run demoEnv State.empty joinTrace) (.message 1 zeroTsLocation)).2 =
      [(1, OutMsg.location "u1" (some "Ana") (.num d10) (.num d20) (.num dClock)
            (.num d5))] ∧
    (step demoEnv (run demoEnv State.empty joinTrace) (.message 1 zeroTsLocation)).2 ≠
      [(1, OutMsg.location "u1" (some "Ana") (.num d10) (.num d20) (.num Finite64.zero)
            (.num d5))] := by
  decide

/-- C10 (amended): for a connection authenticated as `u`, the row appended carries
`locationTs` and `locationAccuracy` and the message broadcast carries them as
`JSON.stringify` writes them.  A `ts` that is a truthy number (any binary64 value but
`NaN`, `0` and `-0`) is kept as it is; the server clock is used when `ts` is a falsy
number (`0` or `-0`) or absent.  An `accuracy` that is a truthy number is kept; the
accuracy is `0` when `accuracy` is a falsy number or absent.  On the wire a finite
nonzero number is itself and an infinite one is `null`. -/
theorem location_ts_and_accuracy (env : Env) (s : State) (ws : Conn) (m : SocketMeta)
    (u : String) (lat lng ts accuracy : JVal)
    (hm : mapGet s.socketMeta ws = some m) (hu : m.userId = some u) (hne : u ≠ "") :
    ((step env s (.message ws (.location lat lng ts accuracy))).1.locations =
        s.locations ++
          [{ userId := u, lat := toNumber env.stringToNumber lat,
             lng := toNumber env.stringToNumber lng,
             accuracy := locationAccuracy env accuracy, ts := locationTs env ts }] ∧
     (step env s (.message ws (.location lat lng ts accuracy))).2 =
        sendToRoom s m.room
          (OutMsg.location u m.name (stringifyNumber (toNumber env.stringToNumber lat))
            (stringifyNumber (toNumber env.stringToNumber lng))
            (stringifyNumber (locationTs env ts))
            (stringifyNumber (locationAccuracy env accuracy)))) ∧
    (∀ t : JsNum, t.truthy = true → locationTs env (.num t) = t) ∧
    (∀ t : JsNum, t.truthy = false → locationTs env (.num t) = env.now) ∧
    locationTs env .undef = env.now ∧
    (∀ a : JsNum, a.truthy = true → locationAccuracy env (.num a) = a) ∧
    (∀ a : JsNum, a.truthy = false → locationAccuracy env (.num a) = JsNum.zero) ∧
    locationAccuracy env .undef = JsNum.zero ∧
    (∀ d : Finite64, d.m ≠ 0 →
      (JsNum.fin d).truthy = true ∧ stringifyNumber (.fin d) = .num d) ∧
    (∀ d : Finite64, d.m = 0 → (JsNum.fin d).truthy = false) ∧
    (∀ b : Bool, (JsNum.inf b).truthy = true ∧ stringifyNumber (.inf b) = .null) := by
  have hstep : step env s (.message ws (.location lat lng ts accuracy)) = _ :=
    onLocation_authenticated env s ws m u lat lng ts accuracy hm hu hne
  rw [hstep]
  refine ⟨⟨rfl, rfl⟩, locationTs_truthy env, locationTs_falsy env, ?_, ?_, ?_, ?_, ?_, ?_, ?_⟩
  · simp [locationTs, toNumber, JsNum.truthy]
  · intro a ha
    rw [locationAccuracy_num, JsNum.orZero, if_pos ha]
  · intro a ha
    rw [locationAccuracy_num, JsNum.orZero, if_neg (by simp [ha])]
  · simp [locationAccuracy, toNumber, JVal.truthy]
  · intro d hd
    simp [JsNum.truthy, stringifyNumber, hd]
  · intro d hd
    simp [JsNum.truthy, hd]
  · intro b
    simp [JsNum.truthy, stringifyNumber]

theorem location_ts_and_accuracy_witness :
    (mapGet (run demoEnv State.empty joinTrace).socketMeta 1 =
        some { connId := 1, userId := some "u1", name := some "Ana", room := some "sala1" } ∧
      "u1" ≠ "") ∧
    (((step demoEnv (run demoEnv State.empty joinTrace)
          (.message 1 infiniteTsLocation)).1.locations =
        (run demoEnv State.empty joinTrace).locations ++
          [{ userId := "u1", lat := toNumber demoEnv.stringToNumber (.num (.fin d10)),
             lng := toNumber demoEnv.stringToNumber (.num (.fin d20)),
             accuracy := locationAccuracy demoEnv (.num (.fin d5)),
             ts := locationTs demoEnv (.num (.inf false)) }] ∧
      (step demoEnv (run demoEnv State.empty joinTrace)
          (.message 1 infiniteTsLocation)).2 =
        sendToRoom (run demoEnv State.empty joinTrace) (some "sala1")
          (OutMsg.location "u1" (some "Ana")
            (stringifyNumber (toNumber demoEnv.stringToNumber (.num (.fin d10))))
            (stringifyNumber (toNumber demoEnv.stringToNumber (.num (.fin d20))))
            (stringifyNumber (locationTs demoEnv (.num (.inf false))))
            (stringifyNumber (locationAccuracy demoEnv (.num (.fin d5)))))) ∧
     (∀ t : JsNum, t.truthy = true → locationTs demoEnv (.num t) = t) ∧
     (∀ t : JsNum, t.truthy = false → locationTs demoEnv (.num t) = demoEnv.now) ∧
     locationTs demoEnv .undef = demoEnv.now ∧
     (∀ a : JsNum, a.truthy = true → locationAccuracy demoEnv (.num a) = a) ∧
     (∀ a : JsNum, a.truthy = false → locationAccuracy demoEnv (.num a) = JsNum.zero) ∧
     locationAccuracy demoEnv .undef = JsNum.zero ∧
     (∀ d : Finite64, d.m ≠ 0 →
       (JsNum.fin d).truthy = true ∧ stringifyNumber (.fin d) = .num d) ∧
     (∀ d : Finite64, d.m = 0 → (JsNum.fin d).truthy = false) ∧
     (∀ b : Bool, (JsNum.inf b).truthy = true ∧ stringifyNumber (.inf b) = .null)) :=
  ⟨⟨by decide, by decide⟩,
   location_ts_and_accuracy demoEnv (run demoEnv State.empty joinTrace) 1
     { connId := 1, userId := some "u1", name := some "Ana", room := some "sala1" } "u1"
     (.num (.fin d10)) (.num (.fin d20)) (.num (.inf false)) (.num (.fin d5))
     (by decide) rfl (by decide)⟩

/-- C6 (counterexample): connection 1, authenticated as ("u1", "Ana") in "sala1",
sends a location with numeric fields and `ts` 0: the row appended to `locations` has
the server clock as `ts`, not the supplied 0. -/
theorem zero_ts_is_replaced_in_append :
    (step demoEnv (run demoEnv State.empty joinTrace) (.message 1 zeroTsLocation)).1.locations =
      [{ userId := "u1", lat := .fin d10, lng := .fin d20, accuracy := .fin d5,
         ts := .fin dClock }] ∧
    (step demoEnv (run demoEnv State.empty joinTrace) (.message 1 zeroTsLocation)).1.locations ≠
      [{ userId := "u1", lat := .fin d10, lng := .fin d20, accuracy := .fin d5,
         ts := JsNum.zero }] := by
  decide

/-- C6 (amended): in a reachable state, for a connection authenticated as `(u, n)` in
room `R` and a location message whose `lat`, `lng`, `accuracy` and `ts` are numbers
(binary64 values, as `JSON.parse` reads them) with `ts` truthy (not `0`, `-0`):
exactly the row `(u, lat, lng, accuracy || 0, ts)` is appended to `locations`; every
send is the message `{type:"location", clientId:u, name:n, lat, lng, ts, accuracy}`
with its numbers as `JSON.stringify` writes them; a connection is sent it once if it
is in the member set of `R` and its socket is OPEN, and not at all otherwise; and the
sender is in the member set of `R`. -/
theorem location_persisted_and_fanned_out (env : Env) (s : State) (ws cid : Conn)
    (u : String) (n : Option String) (R : String) (lat lng ts accuracy : JsNum)
    (hreach : Reachable s)
    (hm : mapGet s.socketMeta ws =
      some { connId := cid, userId := some u, name := n, room := some R })
    (hne : u ≠ "") (hts : ts.truthy = true) :
    (step env s (.message ws (numericLocation lat lng ts accuracy))).1.locations =
      s.locations ++
        [{ userId := u, lat := lat, lng := lng, accuracy := accuracy.orZero, ts := ts }] ∧
    (∀ x ∈ (step env s (.message ws (numericLocation lat lng ts accuracy))).2,
      x.2 = OutMsg.location u n (stringifyNumber lat) (stringifyNumber lng)
        (stringifyNumber ts) (stringifyNumber accuracy.orZero)) ∧
    (∀ c : Conn,
      (step env s (.message ws (numericLocation lat lng ts accuracy))).2.count
          (c, OutMsg.location u n (stringifyNumber lat) (stringifyNumber lng)
            (stringifyNumber ts) (stringifyNumber accuracy.orZero)) =
        if c ∈ members s R ∧ isOpen s c = true then 1 else 0) ∧
    ws ∈ members s R := by
  obtain ⟨hnd, hsess⟩ := reachable_inv s hreach
  obtain ⟨hR, ms, hg, hmem⟩ := hsess ws _ R hm rfl
  have hts2 : locationTs env (.num ts) = ts := locationTs_truthy env ts hts
  have hacc : locationAccuracy env (.num accuracy) = accuracy.orZero :=
    locationAccuracy_num env accuracy
  have hstep : step env s (.message ws (numericLocation lat lng ts accuracy)) = _ :=
    onLocation_authenticated env s ws _ u (.num lat) (.num lng)
      (.num ts) (.num accuracy) hm rfl hne
  have hsend : ∀ payload, sendToRoom s (some R) payload =
      ((members s R).filter (isOpen s)).map (fun c => (c, payload)) := by
    intro payload
    simp [sendToRoom, hR, mapHas, hg]
  have hms : members s R = ms := by simp [members, hg]
  rw [hstep]
  refine ⟨?_, ?_, ?_, ?_⟩
  · simp only [hts2, hacc, toNumber]
  · intro x hx
    simp only [hts2, hacc, toNumber, hsend] at hx
    obtain ⟨c, _, hc⟩ := List.mem_map.1 hx
    rw [← hc]
  · intro c
    simp only [hts2, hacc, toNumber, hsend]
    exact count_fanout (members s R) (isOpen s) _ c (members_nodup s hnd R)
  · rw [hms]
    exact hmem

theorem location_persisted_and_fanned_out_witness :
    (Reachable (run demoEnv State.empty roomTrace) ∧
      mapGet (run demoEnv State.empty roomTrace).socketMeta 1 =
        some { connId := 1, userId := some "u1", name := some "Ana", room := some "sala1" } ∧
      "u1" ≠ "" ∧ (JsNum.fin d1000).truthy = true) ∧
    ((step demoEnv (run demoEnv State.empty roomTrace)
        (.message 1 (numericLocation (.fin d10_5) (.fin d20_25) (.fin d1000)
          (.fin d5)))).1.locations =
      (run demoEnv State.empty roomTrace).locations ++
        [{ userId := "u1", lat := .fin d10_5, lng := .fin d20_25,
           accuracy := (JsNum.fin d5).orZero, ts := .fin d1000 }] ∧
     (∀ x ∈ (step demoEnv (run demoEnv State.empty roomTrace)
          (.message 1 (numericLocation (.fin d10_5) (.fin d20_25) (.fin d1000)
            (.fin d5)))).2,
        x.2 = OutMsg.location "u1" (some "Ana") (stringifyNumber (.fin d10_5))
          (stringifyNumber (.fin d20_25)) (stringifyNumber (.fin d1000))
          (stringifyNumber (JsNum.fin d5).orZero)) ∧
     (∀ c : Conn,
        (step demoEnv (run demoEnv State.empty roomTrace)
          (.message 1 (numericLocation (.fin d10_5) (.fin d20_25) (.fin d1000)
            (.fin d5)))).2.count
            (c, OutMsg.location "u1" (some "Ana") (stringifyNumber (.fin d10_5))
              (stringifyNumber (.fin d20_25)) (stringifyNumber (.fin d1000))
              (stringifyNumber (JsNum.fin d5).orZero)) =
          if c ∈ members (run demoEnv State.empty roomTrace) "sala1" ∧
              isOpen (run demoEnv State.empty roomTrace) c = true then 1 else 0) ∧
     1 ∈ members (run demoEnv State.empty roomTrace) "sala1") :=
  ⟨⟨reachable_run demoEnv roomTrace _ Reachable.init, by decide, by decide, by decide⟩,
   location_persisted_and_fanned_out demoEnv (run demoEnv State.empty roomTrace) 1 1
     "u1" (some "Ana") "sala1" (.fin d10_5) (.fin d20_25) (.fin d1000) (.fin d5)
     (reachable_run demoEnv roomTrace _ Reachable.init) (by decide) (by decide) (by decide)⟩

/-- C1 (failing input): after connection 2 switched from room "A" to room "B" by a
second `auth`, a location sent by connection 1 (session room "A") is sent to
connection 2, whose own `socketMeta` entry records room "B". -/
theorem location_sent_to_other_session_room :
    Reachable (run demoEnv State.empty switchTrace) ∧
    sessionRoom (run demoEnv State.empty switchTrace) 1 = some "A" ∧
    sessionRoom (run demoEnv State.empty switchTrace) 2 = some "B" ∧
    (step demoEnv (run demoEnv State.empty switchTrace) (.message 1 sampleLocation)).2 =
      [(1, OutMsg.location "u1" (some "Ana") (.num d10) (.num d20) (.num d1000) (.num d5)),
       (2, OutMsg.location "u1" (some "Ana") (.num d10) (.num d20) (.num d1000) (.num d5))] :=
  ⟨reachable_run demoEnv switchTrace _ Reachable.init, by decide, by decide, by decide⟩

/-- C2 (failing input): after a connection authenticated into room "A" and then into
room "B", it is in the member sets of both rooms. -/
theorem connection_in_two_member_sets :
    Reachable (run demoEnv State.empty reauthTrace) ∧
    (run demoEnv State.empty reauthTrace).rooms = [("A", [1]), ("B", [1])] ∧
    1 ∈ members (run demoEnv State.empty reauthTrace) "A" ∧
    1 ∈ members (run demoEnv State.empty reauthTrace) "B" :=
  ⟨reachable_run demoEnv reauthTrace _ Reachable.init, by decide, by decide, by decide⟩

/-- C3 (failing input): connection 1 moved from room "A" to room "B"; when connection
2 then authenticates into "A", the roster of the `meta` message lists ("u1", "Ana"),
although the session room of connection 1 is "B". -/
theorem roster_lists_connection_of_other_session_room :
    Reachable (run demoEnv State.empty rosterTrace) ∧
    (step demoEnv (run demoEnv State.empty rosterTrace)
        (.message 2 (.auth (some "tok-bea") (some "A")))).2 =
      [(2, OutMsg.welcome "u2"),
       (1, OutMsg.meta [{ id := "u1", name := some "Ana" }, { id := "u2", name := some "Bea" }]),
       (2, OutMsg.meta [{ id := "u1", name := some "Ana" }, { id := "u2", name := some "Bea" }])] ∧
    sessionRoom (step demoEnv (run demoEnv State.empty rosterTrace)
        (.message 2 (.auth (some "tok-bea") (some "A")))).1 1 = some "B" ∧
    sessionRoom (step demoEnv (run demoEnv State.empty rosterTrace)
        (.message 2 (.auth (some "tok-bea") (some "A")))).1 2 = some "A" :=
  ⟨reachable_run demoEnv rosterTrace _ Reachable.init, by decide, by decide, by decide⟩

/-- C7 (failing input): connection 1 is authenticated with session room "B" after
having first joined "A"; handling its `close` removes it from "B" only, and it is
still in the member set of "A" afterwards. -/
theorem closed_connection_stays_in_first_room :
    Reachable (run demoEnv State.empty reauthTrace) ∧
    sessionUser (run demoEnv State.empty reauthTrace) 1 = some "u1" ∧
    sessionRoom (run demoEnv State.empty reauthTrace) 1 = some "B" ∧
    (step demoEnv (run demoEnv State.empty reauthTrace) (.close 1)).1.rooms =
      [("A", [1]), ("B", [])] ∧
    (step demoEnv (run demoEnv State.empty reauthTrace) (.close 1)).1.socketMeta = [] ∧
    1 ∈ members (step demoEnv (run demoEnv State.empty reauthTrace) (.close 1)).1 "A" :=
  ⟨reachable_run demoEnv reauthTrace _ Reachable.init, by decide, by decide, by decide,
   by decide, by decide⟩

end UbicacionTiempoReal
